import Mathlib

/-!
Verification of the SongWhisper repository (src/main.py, src/main_etc.py)
against its natural-language specification.

The two Python files each define a Query Builder
(process_recognition_result) and a browser-automation sequencer
(open_song_with_selenium).  The Query Builder is pure: it is embedded
directly as a Lean function on strings, with a faithful byte-level model
of Python's urllib.parse.quote_plus (UTF-8 encoding followed by
percent-encoding, space encoded as '+').  The sequencer performs browser
I/O inside try/except blocks; it is embedded as a function from an
environment (recording the outcome of each fallible operation: driver
launch, page load, element lookups, window enumeration, script
invocation) to a run result (returned value, whether driver.quit() was
called, whether an exception propagated, the list of steps entered, the
active window, the number of fallback invocations, and a status naming
the branch on which the function returned).
-/

/-- UTF-8 encoding of a single Unicode scalar value given as a Nat,
exactly as Python's str.encode("utf-8") produces for one code point. -/
def utf8EncodeCodepoint (n : Nat) : List Nat :=
  if n < 0x80 then [n]
  else if n < 0x800 then [0xC0 + n / 64, 0x80 + n % 64]
  else if n < 0x10000 then
    [0xE0 + n / 4096, 0x80 + (n / 64) % 64, 0x80 + n % 64]
  else
    [0xF0 + n / 262144, 0x80 + (n / 4096) % 64, 0x80 + (n / 64) % 64,
     0x80 + n % 64]

/-- UTF-8 encoding of a list of characters (Python str.encode("utf-8")). -/
def utf8EncodeChars (l : List Char) : List Nat :=
  l.flatMap (fun c => utf8EncodeCodepoint c.toNat)

/-- UTF-8 decoding of a byte list back to code points (Python
bytes.decode("utf-8")).  Total function; on byte lists that are valid
UTF-8 (the only inputs it is ever applied to in this development) it is
the standard decoder. -/
def utf8Decode : List Nat → List Nat
  | [] => []
  | b :: rest =>
    if b < 0x80 then b :: utf8Decode rest
    else if b < 0xE0 then
      ((b - 0xC0) * 64 + (rest.headD 0 - 0x80)) :: utf8Decode (rest.drop 1)
    else if b < 0xF0 then
      ((b - 0xE0) * 4096 + (rest.headD 0 - 0x80) * 64 +
        ((rest.drop 1).headD 0 - 0x80)) :: utf8Decode (rest.drop 2)
    else
      ((b - 0xF0) * 262144 + (rest.headD 0 - 0x80) * 4096 +
        ((rest.drop 1).headD 0 - 0x80) * 64 +
        ((rest.drop 2).headD 0 - 0x80)) :: utf8Decode (rest.drop 3)
  termination_by l => l.length
  decreasing_by
    all_goals simp [List.length_drop]
    all_goals omega

/-- The bytes urllib.parse.quote never escapes ("always safe" set):
ASCII letters, digits, and the four marks underscore, dot, hyphen,
tilde. -/
def isSafeByte (b : Nat) : Bool :=
  (0x41 ≤ b && b ≤ 0x5A) || (0x61 ≤ b && b ≤ 0x7A) ||
  (0x30 ≤ b && b ≤ 0x39) || b == 0x5F || b == 0x2E || b == 0x2D ||
  b == 0x7E

/-- Uppercase hexadecimal digit character for a value below 16, as used
by urllib.parse.quote when percent-escaping a byte. -/
def hexDigitChar (n : Nat) : Char :=
  if n < 10 then Char.ofNat (0x30 + n) else Char.ofNat (0x41 + n - 10)

/-- Encoding of one byte under urllib.parse.quote_plus: safe bytes are
kept literally, the space byte becomes '+', every other byte becomes a
percent escape with two uppercase hex digits. -/
def quoteByte (b : Nat) : List Char :=
  if isSafeByte b then [Char.ofNat b]
  else if b == 0x20 then ['+']
  else ['%', hexDigitChar (b / 16), hexDigitChar (b % 16)]

/-- Model of urllib.parse.quote_plus with default arguments, as called
by process_recognition_result in both main.py and main_etc.py: UTF-8
encode the string, then encode each byte with quoteByte. -/
def quote_plus (s : String) : String :=
  String.mk ((utf8EncodeChars s.data).flatMap quoteByte)

/-- Numeric value of a hexadecimal digit character (0 on non-digits). -/
def hexVal (c : Char) : Nat :=
  if '0' ≤ c && c ≤ '9' then c.toNat - 0x30
  else if 'A' ≤ c && c ≤ 'F' then c.toNat - 0x41 + 10
  else if 'a' ≤ c && c ≤ 'f' then c.toNat - 0x61 + 10
  else 0

/-- Byte-level decoding of an x-www-form-urlencoded value, as performed
by urllib.parse.unquote_plus on the ASCII output of quote_plus: a
percent escape yields the escaped byte, '+' yields the space byte, and
any other character yields its own code point (the inputs used here are
ASCII, so each such character is one byte). -/
def unquotePlusChars : List Char → List Nat
  | [] => []
  | c :: rest =>
    if c = '+' then 0x20 :: unquotePlusChars rest
    else if c = '%' then
      (hexVal (rest.headD '0') * 16 + hexVal ((rest.drop 1).headD '0')) ::
        unquotePlusChars (rest.drop 2)
    else c.toNat :: unquotePlusChars rest
  termination_by l => l.length
  decreasing_by
    all_goals simp [List.length_drop]
    all_goals omega

/-- Model of urllib.parse.unquote_plus: the standard decoding of a query
parameter value in the x-www-form-urlencoded convention (percent escapes
decoded byte-wise, '+' decoded as space, then UTF-8 decoded). -/
def unquote_plus (s : String) : String :=
  String.mk ((utf8Decode (unquotePlusChars s.data)).map Char.ofNat)

/-- The error message placed under the "error" key by both variants of
process_recognition_result (spec name: NoTranscript). -/
def noTranscriptMsg : String := "가사를 인식하지 못했습니다."

/-- Query Builder of main.py (Profile A, YouTube endpoint).  The Python
function returns a dict, modelled as an association list in insertion
order: on empty input the single key "error"; otherwise the keys
"song_url" and "song_title", with the URL built from the fixed endpoint
and quote_plus of the transcript, and the title truncated to 50
characters with a "..." marker exactly as recognized_text[:50] + "..."
when len(recognized_text) > 50. -/
def process_recognition_result (recognized_text : String) :
    List (String × String) :=
  if recognized_text = "" then [("error", noTranscriptMsg)]
  else
    let query := quote_plus recognized_text
    let song_url := "https://www.youtube.com/results?search_query=" ++ query
    let song_title :=
      if recognized_text.length > 50 then recognized_text.take 50 ++ "..."
      else recognized_text
    [("song_url", song_url), ("song_title", song_title)]

/-- Query Builder of main_etc.py (Profile B, BUGS Music endpoint);
identical to the main.py variant except for the endpoint constant. -/
def process_recognition_result_etc (recognized_text : String) :
    List (String × String) :=
  if recognized_text = "" then [("error", noTranscriptMsg)]
  else
    let query := quote_plus recognized_text
    let song_url := "https://music.bugs.co.kr/search/lyrics?q=" ++ query
    let song_title :=
      if recognized_text.length > 50 then recognized_text.take 50 ++ "..."
      else recognized_text
    [("song_url", song_url), ("song_title", song_title)]

/-- Names of the units of work in open_song_with_selenium; a run's trace
lists the steps whose code was entered, in order. -/
inductive Step where
  | launch
  | opened
  | resultsVisible
  | contextSwitch
  | interstitialDismiss
  | playbackEngage
  | playbackFallback
deriving DecidableEq, Repr

/-- The branch on which open_song_with_selenium returned: which failure
(if any) ended the run, or completed (the function reached its final
return driver). -/
inductive RunStatus where
  | launchFailed
  | pageLoadFailed
  | abortedResults
  | completed
deriving DecidableEq, Repr

/-- Environment for a run of main_etc.py's open_song_with_selenium: one
Boolean per try-block body saying whether it raises, plus the window
handles the driver reports in the context-switch step.  launchOk: the
ChromeDriver construction block; getOk: the driver.get block;
firstPlayOk: lookup and click of the top listen button; enumOk: the
window-enumeration/switch block raises no exception; closePopupOk:
lookup and click of the popup close button; playBtnOk: lookup and click
of the web-player play button; audioPlayOk: the execute_script
audio.play() call. -/
structure EnvB where
  launchOk : Bool
  getOk : Bool
  firstPlayOk : Bool
  enumOk : Bool
  mainHandle : String
  handles : List String
  closePopupOk : Bool
  playBtnOk : Bool
  audioPlayOk : Bool
deriving DecidableEq, Repr

/-- Environment for a run of main.py's open_song_with_selenium.  In
main.py the driver construction and driver.get are not wrapped in
try/except, so their failure propagates as an exception; shortsOk is the
Shorts-link lookup-and-click try-block, videoPlayOk the execute_script
video.play() try-block. -/
structure EnvA where
  launchOk : Bool
  getOk : Bool
  shortsOk : Bool
  videoPlayOk : Bool
deriving DecidableEq, Repr

/-- Observable outcome of a run of either open_song_with_selenium
variant.  returnedDriver: the function returned the driver object (the
session is open and handed to the caller); quitCalled: driver.quit()
was executed; raised: an exception escaped the function (only possible
in main.py); trace: steps entered in order; active: the window handle
in focus at the end; fallbackCalls: number of direct media-element
play() script invocations performed. -/
structure RunResult where
  returnedDriver : Bool
  quitCalled : Bool
  raised : Bool
  trace : List Step
  active : String
  fallbackCalls : Nat
  status : RunStatus
deriving DecidableEq, Repr

/-- Embedding of open_song_with_selenium from main_etc.py (lines
126-222), branch for branch.  Launch failure returns None with no
navigation; driver.get failure quits and returns None; failure of the
top listen-button click quits and returns None; the window switch picks
the first enumerated handle differing from the current one when more
than one window exists and its try-block never ends the run; the popup
close step never ends the run; if the play-button click fails the
direct audio.play() script is invoked once, and even if that also fails
the driver is returned. -/
def open_song_with_selenium_etc (env : EnvB) : RunResult :=
  if env.launchOk then
    if env.getOk then
      if env.firstPlayOk then
        let active :=
          if env.enumOk then
            if env.handles.length > 1 then
              match env.handles.find? (fun h => h != env.mainHandle) with
              | some h => h
              | none => env.mainHandle
            else env.mainHandle
          else env.mainHandle
        { returnedDriver := true, quitCalled := false, raised := false,
          trace := [Step.launch, Step.opened, Step.resultsVisible,
                    Step.contextSwitch, Step.interstitialDismiss,
                    Step.playbackEngage] ++
                   (if env.playBtnOk then [] else [Step.playbackFallback]),
          active := active,
          fallbackCalls := if env.playBtnOk then 0 else 1,
          status := RunStatus.completed }
      else
        { returnedDriver := false, quitCalled := true, raised := false,
          trace := [Step.launch, Step.opened, Step.resultsVisible],
          active := env.mainHandle, fallbackCalls := 0,
          status := RunStatus.abortedResults }
    else
      { returnedDriver := false, quitCalled := true, raised := false,
        trace := [Step.launch, Step.opened],
        active := env.mainHandle, fallbackCalls := 0,
        status := RunStatus.pageLoadFailed }
  else
    { returnedDriver := false, quitCalled := false, raised := false,
      trace := [Step.launch],
      active := env.mainHandle, fallbackCalls := 0,
      status := RunStatus.launchFailed }

/-- Embedding of open_song_with_selenium from main.py (lines 122-175),
branch for branch.  Driver construction and driver.get are unguarded,
so their failure raises out of the function with no teardown; failure
of the Shorts-link click returns the driver immediately, skipping the
video.play() script; on a successful click the video.play() script is
invoked once inside its own try-block and the driver is returned
whether or not it raises. -/
def open_song_with_selenium_main (env : EnvA) : RunResult :=
  if env.launchOk then
    if env.getOk then
      if env.shortsOk then
        { returnedDriver := true, quitCalled := false, raised := false,
          trace := [Step.launch, Step.opened, Step.resultsVisible,
                    Step.playbackFallback],
          active := "", fallbackCalls := 1,
          status := RunStatus.completed }
      else
        { returnedDriver := true, quitCalled := false, raised := false,
          trace := [Step.launch, Step.opened, Step.resultsVisible],
          active := "", fallbackCalls := 0,
          status := RunStatus.abortedResults }
    else
      { returnedDriver := false, quitCalled := false, raised := true,
        trace := [Step.launch, Step.opened],
        active := "", fallbackCalls := 0,
        status := RunStatus.pageLoadFailed }
  else
    { returnedDriver := false, quitCalled := false, raised := true,
      trace := [Step.launch],
      active := "", fallbackCalls := 0,
      status := RunStatus.launchFailed }

/-- Char.ofNat on a valid code point has that code point as toNat. -/
theorem char_toNat_ofNat_valid (n : Nat) (h : n.isValidChar) :
    (Char.ofNat n).toNat = n := by
  rw [Char.ofNat, dif_pos h]
  rfl

/-- Every character's code point is below 0x110000. -/
theorem char_toNat_lt (c : Char) : c.toNat < 0x110000 := by
  have h : c.val.toNat < 0xd800 ∨
      (0xdfff < c.val.toNat ∧ c.val.toNat < 0x110000) := c.valid
  show c.val.toNat < 0x110000
  omega

/-- All bytes produced by the UTF-8 encoder are below 256. -/
theorem utf8EncodeCodepoint_lt_256 (n : Nat) (hn : n < 0x110000) :
    ∀ b ∈ utf8EncodeCodepoint n, b < 256 := by
  unfold utf8EncodeCodepoint
  split_ifs with h1 h2 h3 <;> intro b hb <;> simp at hb <;> omega

/-- Decoding the UTF-8 encoding of one code point prepended to any byte
tail recovers the code point and leaves the tail to be decoded. -/
theorem utf8Decode_encode_append (n : Nat) (hn : n < 0x110000)
    (bs : List Nat) :
    utf8Decode (utf8EncodeCodepoint n ++ bs) = n :: utf8Decode bs := by
  unfold utf8EncodeCodepoint
  split_ifs with h1 h2 h3
  · simp only [List.cons_append, List.nil_append, utf8Decode]
    rw [if_pos h1]
  · simp only [List.cons_append, List.nil_append, utf8Decode]
    rw [if_neg (by omega), if_pos (by omega)]
    simp only [List.headD_cons, List.drop_succ_cons, List.drop_zero]
    have : (0xC0 + n / 64 - 0xC0) * 64 + (0x80 + n % 64 - 0x80) = n := by
      omega
    rw [this]
  · simp only [List.cons_append, List.nil_append, utf8Decode]
    rw [if_neg (by omega), if_neg (by omega), if_pos (by omega)]
    simp only [List.headD_cons, List.drop_succ_cons, List.drop_zero]
    have : (0xE0 + n / 4096 - 0xE0) * 4096 +
        (0x80 + n / 64 % 64 - 0x80) * 64 + (0x80 + n % 64 - 0x80) = n := by
      omega
    rw [this]
  · simp only [List.cons_append, List.nil_append, utf8Decode]
    rw [if_neg (by omega), if_neg (by omega), if_neg (by omega)]
    simp only [List.headD_cons, List.drop_succ_cons, List.drop_zero]
    have : (0xF0 + n / 262144 - 0xF0) * 262144 +
        (0x80 + n / 4096 % 64 - 0x80) * 4096 +
        (0x80 + n / 64 % 64 - 0x80) * 64 + (0x80 + n % 64 - 0x80) = n := by
      omega
    rw [this]

/-- UTF-8 decoding inverts UTF-8 encoding on every character list. -/
theorem utf8Decode_utf8EncodeChars (l : List Char) :
    utf8Decode (utf8EncodeChars l) = l.map Char.toNat := by
  induction l with
  | nil => simp [utf8EncodeChars, utf8Decode]
  | cons c t ih =>
    simp only [utf8EncodeChars, List.flatMap_cons] at ih ⊢
    rw [utf8Decode_encode_append c.toNat (char_toNat_lt c), ih,
      List.map_cons]

/-- hexVal inverts hexDigitChar on byte nibbles. -/
theorem hexVal_hexDigitChar : ∀ x < 16, hexVal (hexDigitChar x) = x := by
  decide

/-- Decoding the quote_plus encoding of one byte prepended to any
character tail recovers the byte and leaves the tail to be decoded. -/
theorem unquotePlusChars_quoteByte_append (b : Nat) (hb : b < 256)
    (cs : List Char) :
    unquotePlusChars (quoteByte b ++ cs) = b :: unquotePlusChars cs := by
  have hval : (Char.ofNat b).toNat = b :=
    char_toNat_ofNat_valid b (Or.inl (by omega))
  unfold quoteByte
  split_ifs with hsafe hspace
  · simp only [isSafeByte, Bool.or_eq_true, Bool.and_eq_true,
      decide_eq_true_eq, beq_iff_eq] at hsafe
    have hplus : ¬ (Char.ofNat b = '+') := by
      intro e
      rw [e] at hval
      have : (43 : Nat) = b := hval
      omega
    have hpct : ¬ (Char.ofNat b = '%') := by
      intro e
      rw [e] at hval
      have : (37 : Nat) = b := hval
      omega
    simp only [List.cons_append, List.nil_append, unquotePlusChars]
    rw [if_neg hplus, if_neg hpct, hval]
  · have hb32 : b = 32 := by simpa using hspace
    subst hb32
    simp only [List.cons_append, List.nil_append, unquotePlusChars, if_true]
  · simp only [List.cons_append, List.nil_append, unquotePlusChars, if_true,
      List.headD_cons, List.drop_succ_cons, List.drop_zero]
    rw [hexVal_hexDigitChar (b / 16) (by omega),
      hexVal_hexDigitChar (b % 16) (by omega)]
    have : b / 16 * 16 + b % 16 = b := by omega
    rw [this, if_neg (by decide : ¬ ('%' : Char) = '+')]

/-- Decoding the quote_plus encoding of a byte list recovers the list. -/
theorem unquotePlusChars_flatMap_quoteByte (bs : List Nat)
    (h : ∀ b ∈ bs, b < 256) :
    unquotePlusChars (bs.flatMap quoteByte) = bs := by
  induction bs with
  | nil => simp [unquotePlusChars]
  | cons b t ih =>
    rw [List.flatMap_cons,
      unquotePlusChars_quoteByte_append b (h b (by simp)) _,
      ih (fun x hx => h x (by simp [hx]))]

/-- Round trip: unquote_plus inverts quote_plus on every string.  This
is the x-www-form-urlencoded decoding of a query parameter value
applied to the encoding urllib.parse.quote_plus performs. -/
theorem unquote_plus_quote_plus (s : String) :
    unquote_plus (quote_plus s) = s := by
  have hbytes : ∀ b ∈ utf8EncodeChars s.data, b < 256 := by
    intro b hbmem
    simp only [utf8EncodeChars, List.mem_flatMap] at hbmem
    obtain ⟨c, _, hb⟩ := hbmem
    exact utf8EncodeCodepoint_lt_256 c.toNat (char_toNat_lt c) b hb
  show String.mk ((utf8Decode (unquotePlusChars
      ((utf8EncodeChars s.data).flatMap quoteByte))).map Char.ofNat) = s
  rw [unquotePlusChars_flatMap_quoteByte _ hbytes,
    utf8Decode_utf8EncodeChars, List.map_map]
  have hmap : s.data.map (Char.ofNat ∘ Char.toNat) = s.data := by
    simp [Function.comp_def]
  rw [hmap]

/-- C4: for every non-empty transcript, the title in the Query Builder
output (both variants) equals the transcript when its length is at most
50, and equals its first 50 characters followed by "..." when its
length exceeds 50, with no other transformation. -/
theorem c4_title_truncation (t : String) (h : t ≠ "") :
    (t.length ≤ 50 →
      (process_recognition_result t).lookup "song_title" = some t ∧
      (process_recognition_result_etc t).lookup "song_title" = some t) ∧
    (50 < t.length →
      (process_recognition_result t).lookup "song_title" =
        some (t.take 50 ++ "...") ∧
      (process_recognition_result_etc t).lookup "song_title" =
        some (t.take 50 ++ "...")) := by
  have hmain : (process_recognition_result t).lookup "song_title" =
      some (if t.length > 50 then t.take 50 ++ "..." else t) := by
    unfold process_recognition_result
    rw [if_neg h]
    simp [List.lookup]
  have hetc : (process_recognition_result_etc t).lookup "song_title" =
      some (if t.length > 50 then t.take 50 ++ "..." else t) := by
    unfold process_recognition_result_etc
    rw [if_neg h]
    simp [List.lookup]
  constructor
  · intro hle
    rw [hmain, hetc, if_neg (by omega)]
    exact ⟨rfl, rfl⟩
  · intro hgt
    rw [hmain, hetc, if_pos (by omega)]
    exact ⟨rfl, rfl⟩

/-- Witness for C4 at a concrete transcript. -/
theorem c4_title_truncation_witness :
    ("abc" : String) ≠ "" ∧
    (process_recognition_result "abc").lookup "song_title" = some "abc" :=
  ⟨by decide, ((c4_title_truncation "abc" (by decide)).1 (by decide)).1⟩

/-- C7: for every non-empty transcript the main.py (Profile A) URL is
the fixed endpoint base, "?", the query parameter name, "=", then the
encoding of the transcript; concretely, the transcript consisting of
the two Korean syllables an-nyeong yields the query part
search_query=%EC%95%88%EB%85%95 and is its own title. -/
theorem c7_profile_a_url (t : String) (h : t ≠ "") :
    (process_recognition_result t).lookup "song_url" =
      some ("https://www.youtube.com/results" ++ "?" ++ "search_query" ++
        "=" ++ quote_plus t) ∧
    (process_recognition_result "안녕").lookup "song_url" =
      some "https://www.youtube.com/results?search_query=%EC%95%88%EB%85%95" ∧
    (process_recognition_result "안녕").lookup "song_title" = some "안녕" := by
  refine ⟨?_, by decide, by decide⟩
  unfold process_recognition_result
  rw [if_neg h]
  simp only [List.lookup]
  rw [show ("https://www.youtube.com/results" ++ "?" ++ "search_query" ++
    "=" : String) = "https://www.youtube.com/results?search_query=" from by
      decide]
  simp

/-- Witness for C7 at a concrete transcript. -/
theorem c7_profile_a_url_witness :
    ("hi" : String) ≠ "" ∧
    (process_recognition_result "hi").lookup "song_url" =
      some ("https://www.youtube.com/results" ++ "?" ++ "search_query" ++
        "=" ++ quote_plus "hi") :=
  ⟨by decide, (c7_profile_a_url "hi" (by decide)).1⟩

/-- C2: for every non-empty transcript, the value of the query
parameter in the URL produced by either Query Builder variant decodes
back to exactly the original transcript under the standard decoding of
a query-parameter value (x-www-form-urlencoded: percent escapes plus
'+' for space, the inverse convention for quote_plus output). -/
theorem c2_url_roundtrip (t : String) (h : t ≠ "") :
    ∃ q : String,
      (process_recognition_result t).lookup "song_url" =
        some ("https://www.youtube.com/results?search_query=" ++ q) ∧
      (process_recognition_result_etc t).lookup "song_url" =
        some ("https://music.bugs.co.kr/search/lyrics?q=" ++ q) ∧
      unquote_plus q = t := by
  refine ⟨quote_plus t, ?_, ?_, unquote_plus_quote_plus t⟩
  · unfold process_recognition_result
    rw [if_neg h]
    simp [List.lookup]
  · unfold process_recognition_result_etc
    rw [if_neg h]
    simp [List.lookup]

/-- Witness for C2 at a concrete transcript containing a space and
non-ASCII characters. -/
theorem c2_url_roundtrip_witness :
    ("안녕 hi" : String) ≠ "" ∧
    ∃ q : String,
      (process_recognition_result "안녕 hi").lookup "song_url" =
        some ("https://www.youtube.com/results?search_query=" ++ q) ∧
      (process_recognition_result_etc "안녕 hi").lookup "song_url" =
        some ("https://music.bugs.co.kr/search/lyrics?q=" ++ q) ∧
      unquote_plus q = "안녕 hi" :=
  ⟨by decide, c2_url_roundtrip "안녕 hi" (by decide)⟩

/-- C8: on the empty transcript both Query Builder variants return
exactly the NoTranscript error dictionary and no URL; and the error key
appears for the empty transcript only. -/
theorem c8_empty_transcript :
    process_recognition_result "" = [("error", noTranscriptMsg)] ∧
    process_recognition_result_etc "" = [("error", noTranscriptMsg)] ∧
    (process_recognition_result "").lookup "song_url" = none ∧
    (process_recognition_result_etc "").lookup "song_url" = none ∧
    (∀ t : String, t ≠ "" →
      (process_recognition_result t).lookup "error" = none ∧
      (process_recognition_result_etc t).lookup "error" = none) := by
  refine ⟨rfl, rfl, by decide, by decide, ?_⟩
  intro t ht
  constructor
  · unfold process_recognition_result
    rw [if_neg ht]
    simp [List.lookup]
  · unfold process_recognition_result_etc
    rw [if_neg ht]
    simp [List.lookup]

/-- C9: the Query Builder is a pure function of the transcript: two
calls with the same transcript yield identical results, in both
variants. -/
theorem c9_idempotent (t : String) :
    process_recognition_result t = process_recognition_result t ∧
    process_recognition_result_etc t = process_recognition_result_etc t :=
  ⟨rfl, rfl⟩

/-- C10: for every input the key set of the returned dictionary is
exactly the error key precisely when the input is empty, and exactly
the song_url and song_title keys precisely when it is non-empty, never
a mixture; a caller holding a non-empty transcript can never observe
the error key. -/
theorem c10_result_keys (t : String) :
    ((process_recognition_result t).map Prod.fst = ["error"] ↔ t = "") ∧
    ((process_recognition_result t).map Prod.fst =
      ["song_url", "song_title"] ↔ t ≠ "") ∧
    ((process_recognition_result_etc t).map Prod.fst = ["error"] ↔ t = "") ∧
    ((process_recognition_result_etc t).map Prod.fst =
      ["song_url", "song_title"] ↔ t ≠ "") ∧
    (t ≠ "" → "error" ∉ (process_recognition_result t).map Prod.fst) ∧
    (t ≠ "" → "error" ∉ (process_recognition_result_etc t).map Prod.fst) := by
  by_cases h : t = "" <;>
    simp [process_recognition_result, process_recognition_result_etc, h]

/-- C1: when step 2 (locating and clicking the first primary result)
fails, neither variant executes the context-switch, interstitial or
playback steps and the run ends at that step as aborted; and in
general, each step of the main_etc.py sequencer is entered exactly when
every earlier abort-policy step succeeded, independently of the
outcomes of the skip-policy steps (window switch, popup close, play
click). -/
theorem c1_abort_and_skip_policy (env : EnvB) (enva : EnvA)
    (h1 : env.launchOk = true) (h2 : env.getOk = true)
    (h3 : env.firstPlayOk = false) (ha : enva.launchOk = true)
    (hb : enva.getOk = true) (hc : enva.shortsOk = false) :
    (open_song_with_selenium_etc env).trace =
      [Step.launch, Step.opened, Step.resultsVisible] ∧
    (open_song_with_selenium_etc env).status = RunStatus.abortedResults ∧
    (open_song_with_selenium_main enva).trace =
      [Step.launch, Step.opened, Step.resultsVisible] ∧
    (open_song_with_selenium_main enva).status = RunStatus.abortedResults ∧
    (∀ e : EnvB,
      (Step.opened ∈ (open_song_with_selenium_etc e).trace ↔
        e.launchOk = true) ∧
      (Step.resultsVisible ∈ (open_song_with_selenium_etc e).trace ↔
        (e.launchOk && e.getOk) = true) ∧
      (Step.contextSwitch ∈ (open_song_with_selenium_etc e).trace ↔
        (e.launchOk && e.getOk && e.firstPlayOk) = true) ∧
      (Step.interstitialDismiss ∈ (open_song_with_selenium_etc e).trace ↔
        (e.launchOk && e.getOk && e.firstPlayOk) = true) ∧
      (Step.playbackEngage ∈ (open_song_with_selenium_etc e).trace ↔
        (e.launchOk && e.getOk && e.firstPlayOk) = true) ∧
      ((open_song_with_selenium_etc e).status = RunStatus.completed ↔
        (e.launchOk && e.getOk && e.firstPlayOk) = true)) := by
  refine ⟨?_, ?_, ?_, ?_, ?_⟩
  · simp [open_song_with_selenium_etc, h1, h2, h3]
  · simp [open_song_with_selenium_etc, h1, h2, h3]
  · simp [open_song_with_selenium_main, ha, hb, hc]
  · simp [open_song_with_selenium_main, ha, hb, hc]
  · intro e
    obtain ⟨l, g, f, en, mh, hs, cp, pb, ap⟩ := e
    cases l <;> cases g <;> cases f <;> cases pb <;>
      simp [open_song_with_selenium_etc]

/-- Witness for C1 at concrete environments where step 2 fails. -/
theorem c1_abort_and_skip_policy_witness :
    ((⟨true, true, false, true, "w", ["w"], true, true, true⟩ :
        EnvB).launchOk = true ∧
      (⟨true, true, false, true⟩ : EnvA).shortsOk = false) ∧
    (open_song_with_selenium_etc
        ⟨true, true, false, true, "w", ["w"], true, true, true⟩).status =
      RunStatus.abortedResults :=
  ⟨⟨rfl, rfl⟩,
    (c1_abort_and_skip_policy
      ⟨true, true, false, true, "w", ["w"], true, true, true⟩
      ⟨true, true, false, true⟩ rfl rfl rfl rfl rfl rfl).2.1⟩

/-- C3: when the sequence reaches step 5 and the play-control lookup or
click fails, the direct media-element play invocation happens exactly
once; and even if that invocation also fails, the function neither
raises nor aborts: the session is returned open to the caller. -/
theorem c3_fallback_once (env : EnvB)
    (h1 : env.launchOk = true) (h2 : env.getOk = true)
    (h3 : env.firstPlayOk = true) (h4 : env.playBtnOk = false) :
    (open_song_with_selenium_etc env).fallbackCalls = 1 ∧
    (open_song_with_selenium_etc env).trace.count Step.playbackFallback =
      1 ∧
    (env.audioPlayOk = false →
      (open_song_with_selenium_etc env).returnedDriver = true ∧
      (open_song_with_selenium_etc env).quitCalled = false ∧
      (open_song_with_selenium_etc env).raised = false ∧
      (open_song_with_selenium_etc env).status = RunStatus.completed) := by
  refine ⟨?_, ?_, fun _ => ⟨?_, ?_, ?_, ?_⟩⟩ <;>
    simp [open_song_with_selenium_etc, h1, h2, h3, h4, List.count_cons]

/-- Witness for C3 at a concrete environment where step 5 and the
fallback both fail. -/
theorem c3_fallback_once_witness :
    ((⟨true, true, true, true, "w", ["w"], true, false, false⟩ :
        EnvB).playBtnOk = false) ∧
    (open_song_with_selenium_etc
        ⟨true, true, true, true, "w", ["w"], true, false, false⟩
      ).fallbackCalls = 1 :=
  ⟨rfl,
    (c3_fallback_once
      ⟨true, true, true, true, "w", ["w"], true, false, false⟩
      rfl rfl rfl rfl).1⟩

/-- C5 counterexample: in the main.py implementation of
open_song_with_selenium (cited by the claim), a failure of step 1
(driver.get on the search URL, with the driver launched) does not tear
the browser session down: driver.quit() is never called, and the
failure propagates out of the function as an exception instead of a
returned error value.  This refutes, at this concrete input, the
claim's assertion that on a step-1 failure the session is torn down
(quit).  Likewise, at a concrete input where the driver launch itself
fails, main.py raises out of the function instead of returning a
launch-failure error value, refuting the claim's assertion that the
sequencer returns a launch-failure error. -/
theorem c5_counterexample :
    ((open_song_with_selenium_main ⟨true, false, true, true⟩).quitCalled =
      false ∧
    (open_song_with_selenium_main ⟨true, false, true, true⟩).raised =
      true) ∧
    ((open_song_with_selenium_main ⟨false, true, true, true⟩).raised =
      true ∧
    (open_song_with_selenium_main ⟨false, true, true, true⟩
      ).returnedDriver = false ∧
    (open_song_with_selenium_main ⟨false, true, true, true⟩).quitCalled =
      false) := by
  decide

/-- C5 amended: in the main_etc.py implementation, a launch failure
returns a failure value (None) with no navigation step performed and no
teardown needed; a step-1 (page-load) failure stops the sequence, calls
driver.quit(), and reports a page-load failure.  In the main.py
implementation, launch and page-load failures instead propagate as
uncaught exceptions, with no later step executed and no teardown. -/
theorem c5_launch_and_pageload (env : EnvB) (enva : EnvA)
    (h1 : env.launchOk = false) (ha : enva.launchOk = true)
    (hb : enva.getOk = false) :
    (open_song_with_selenium_etc env).status = RunStatus.launchFailed ∧
    (open_song_with_selenium_etc env).returnedDriver = false ∧
    Step.opened ∉ (open_song_with_selenium_etc env).trace ∧
    (∀ e : EnvB, e.launchOk = true → e.getOk = false →
      (open_song_with_selenium_etc e).status = RunStatus.pageLoadFailed ∧
      (open_song_with_selenium_etc e).quitCalled = true ∧
      (open_song_with_selenium_etc e).returnedDriver = false ∧
      Step.resultsVisible ∉ (open_song_with_selenium_etc e).trace) ∧
    (open_song_with_selenium_main enva).status = RunStatus.pageLoadFailed ∧
    (open_song_with_selenium_main enva).raised = true ∧
    (open_song_with_selenium_main enva).quitCalled = false ∧
    Step.resultsVisible ∉ (open_song_with_selenium_main enva).trace ∧
    (∀ a : EnvA, a.launchOk = false →
      (open_song_with_selenium_main a).raised = true ∧
      (open_song_with_selenium_main a).returnedDriver = false ∧
      (open_song_with_selenium_main a).quitCalled = false ∧
      Step.opened ∉ (open_song_with_selenium_main a).trace) := by
  refine ⟨?_, ?_, ?_, ?_, ?_, ?_, ?_, ?_, ?_⟩
  · simp [open_song_with_selenium_etc, h1]
  · simp [open_song_with_selenium_etc, h1]
  · simp [open_song_with_selenium_etc, h1]
  · intro e he1 he2
    refine ⟨?_, ?_, ?_, ?_⟩ <;> simp [open_song_with_selenium_etc, he1, he2]
  · simp [open_song_with_selenium_main, ha, hb]
  · simp [open_song_with_selenium_main, ha, hb]
  · simp [open_song_with_selenium_main, ha, hb]
  · simp [open_song_with_selenium_main, ha, hb]
  · intro a hla
    refine ⟨?_, ?_, ?_, ?_⟩ <;> simp [open_song_with_selenium_main, hla]

/-- Witness for the amended C5 at concrete environments. -/
theorem c5_launch_and_pageload_witness :
    ((⟨false, true, true, true, "w", ["w"], true, true, true⟩ :
        EnvB).launchOk = false ∧
      (⟨true, false, true, true⟩ : EnvA).getOk = false) ∧
    (open_song_with_selenium_etc
        ⟨false, true, true, true, "w", ["w"], true, true, true⟩).status =
      RunStatus.launchFailed :=
  ⟨⟨rfl, rfl⟩,
    (c5_launch_and_pageload
      ⟨false, true, true, true, "w", ["w"], true, true, true⟩
      ⟨true, false, true, true⟩ rfl rfl rfl).1⟩

/-- Helper: the active window after a successful run of the main_etc.py
sequencer, as a function of the window-enumeration environment. -/
theorem etc_active_eq (env : EnvB) (h1 : env.launchOk = true)
    (h2 : env.getOk = true) (h3 : env.firstPlayOk = true)
    (h4 : env.enumOk = true) :
    (open_song_with_selenium_etc env).active =
      (if 1 < env.handles.length then
        match env.handles.find? (fun h => h != env.mainHandle) with
        | some h => h
        | none => env.mainHandle
      else env.mainHandle) := by
  simp [open_song_with_selenium_etc, h1, h2, h3, h4]

/-- Helper: a duplicate-free list of length at least two containing m
also contains an element different from m. -/
theorem exists_ne_of_nodup (l : List String) (m : String)
    (hd : l.Nodup) (hl : 1 < l.length) :
    ∃ x, x ∈ l ∧ (x != m) = true := by
  match l, hl with
  | a :: b :: t, _ =>
    by_cases hab : a = m
    · subst hab
      have hne : a ≠ b := by
        have := List.nodup_cons.mp hd
        intro e
        exact this.1 (by rw [e]; simp)
      exact ⟨b, by simp, by simp [bne_iff_ne]; exact fun e => hne e.symm⟩
    · exact ⟨a, by simp, by simp [bne_iff_ne, hab]⟩

/-- C6: in the context-switch step of main_etc.py, when more than one
window exists the first enumerated handle differing from the original
becomes active (no further disambiguation); when exactly one window
exists the original stays active; and no outcome of this step (success
or raised exception) ends the sequence early. -/
theorem c6_context_switch (env : EnvB)
    (h1 : env.launchOk = true) (h2 : env.getOk = true)
    (h3 : env.firstPlayOk = true) (h4 : env.enumOk = true)
    (hmem : env.mainHandle ∈ env.handles) (hnd : env.handles.Nodup) :
    (1 < env.handles.length →
      env.handles.find? (fun h => h != env.mainHandle) =
        some (open_song_with_selenium_etc env).active) ∧
    (env.handles.length = 1 →
      (open_song_with_selenium_etc env).active = env.mainHandle ∧
      env.handles = [env.mainHandle]) ∧
    (∀ e : EnvB, e.launchOk = true → e.getOk = true →
      e.firstPlayOk = true →
      (open_song_with_selenium_etc e).status = RunStatus.completed ∧
      (open_song_with_selenium_etc e).returnedDriver = true ∧
      Step.interstitialDismiss ∈ (open_song_with_selenium_etc e).trace ∧
      Step.playbackEngage ∈ (open_song_with_selenium_etc e).trace) := by
  refine ⟨?_, ?_, ?_⟩
  · intro hlen
    obtain ⟨x, hx, hxp⟩ := exists_ne_of_nodup env.handles env.mainHandle
      hnd hlen
    have hsome : (env.handles.find?
        (fun h => h != env.mainHandle)).isSome :=
      List.find?_isSome.mpr ⟨x, hx, hxp⟩
    obtain ⟨y, hy⟩ := Option.isSome_iff_exists.mp hsome
    rw [etc_active_eq env h1 h2 h3 h4, if_pos hlen, hy]
  · intro hlen
    refine ⟨by rw [etc_active_eq env h1 h2 h3 h4, if_neg (by omega)], ?_⟩
    match henv : env.handles, hlen with
    | [w], _ =>
      rw [henv] at hmem
      simp only [List.mem_singleton] at hmem
      rw [hmem]
  · intro e he1 he2 he3
    obtain ⟨l, g, f, en, mh, hs, cp, pb, ap⟩ := e
    cases en <;> cases pb <;>
      simp_all [open_song_with_selenium_etc]

/-- Witness for C6 at a concrete environment with two windows. -/
theorem c6_context_switch_witness :
    (("a" : String) ∈ (["a", "b"] : List String) ∧
      (["a", "b"] : List String).Nodup) ∧
    (["a", "b"] : List String).find? (fun h => h != "a") =
      some (open_song_with_selenium_etc
        ⟨true, true, true, true, "a", ["a", "b"], true, true, true⟩
      ).active :=
  ⟨⟨by decide, by decide⟩,
    (c6_context_switch
      ⟨true, true, true, true, "a", ["a", "b"], true, true, true⟩
      rfl rfl rfl rfl (by decide) (by decide)).1 (by decide)⟩
